import Mathlib

/-!
Verification of the image preprocessing and text-detection pipeline of the
printed text scanner repository.

The development shallowly embeds the pipeline core:

- `preprocess_image`, `extract_text_with_boxes`, `get_text_boxes` and
  `extract_text_from_roi` from src/ocr_utils.py;
- `get_roi_in_image_coords` (method of ImageCanvas) from src/main.py.

Modelling conventions:

- Images are pixel grids `List (List Nat)` (grayscale) or
  `List (List (Nat × Nat × Nat))` of BGR triples (color); `RawImage` packs the
  two shapes and `Option RawImage` models a possibly-absent (None) image.
- The OpenCV primitives the source calls (cvtColor, medianBlur, threshold,
  adaptiveThreshold, morphologyEx) are external library functions; they are
  modelled here as executable definitions following their documented
  semantics, with integer arithmetic in place of floating point where the
  library uses floats.  Each such definition carries a doc comment naming
  the primitive it models.
- The external recognition engine (pytesseract) is a parameter of the
  adapter functions, returning `Except`: an `error` value models a raised
  exception, an `ok` value a normal return.
- Python float arithmetic in the coordinate mapper is modelled as exact
  rational arithmetic (`Rat`); the Python `int()` conversion truncates
  toward zero, modelled by `ratTrunc`.
-/

/-- Height of a pixel grid: number of rows. -/
def imgH {α : Type} (rows : List (List α)) : Nat := rows.length

/-- Width of a pixel grid: length of the first row (0 for an empty grid). -/
def imgW {α : Type} (rows : List (List α)) : Nat := (rows.headD []).length

/-- Clamp an integer index into `[0, n-1]` (yields 0 when `n = 0`). -/
def clampIdx (n : Nat) (i : Int) : Nat := (max 0 (min i ((n : Int) - 1))).toNat

/-- Pixel access with replicated border: out-of-range coordinates are clamped
to the nearest valid pixel. -/
def pixAt (rows : List (List Nat)) (y x : Int) : Nat :=
  let row := rows.getD (clampIdx rows.length y) []
  row.getD (clampIdx row.length x) 0

/-- Build a pixel grid with the dimensions of `rows` whose pixel at `(y, x)`
is `f y x`. -/
def mapIdx (rows : List (List Nat)) (f : Nat → Nat → Nat) : List (List Nat) :=
  (List.range (imgH rows)).map (fun y => (List.range (imgW rows)).map (fun x => f y x))

/-- Modelled external primitive: cv2.cvtColor with COLOR_BGR2GRAY, using the
OpenCV fixed-point luma coefficients (R 4899, G 9617, B 1868, shift 14) on
BGR triples. -/
def cvtColorBGR2GRAY (rows : List (List (Nat × Nat × Nat))) : List (List Nat) :=
  rows.map (fun row => row.map (fun p =>
    (p.2.2 * 4899 + p.2.1 * 9617 + p.1 * 1868 + 8192) / 16384))

/-- The 5×5 neighborhood of `(y, x)` with replicated border, as a flat list
of 25 pixel values. -/
def window5 (rows : List (List Nat)) (y x : Nat) : List Nat :=
  (List.range 5).flatMap (fun dy => (List.range 5).map (fun dx =>
    pixAt rows ((y : Int) + dy - 2) ((x : Int) + dx - 2)))

/-- Modelled external primitive: cv2.medianBlur with aperture 5 — each output
pixel is the median of the 5×5 neighborhood (border replicated). -/
def medianBlur5 (rows : List (List Nat)) : List (List Nat) :=
  mapIdx rows (fun y x => (List.insertionSort (· ≤ ·) (window5 rows y x)).getD 12 0)

/-- Modelled external primitive: cv2.threshold with THRESH_BINARY and maxval
255 — pixels strictly above the cutoff become 255, all others 0. -/
def thresholdBinary (thresh : Nat) (rows : List (List Nat)) : List (List Nat) :=
  rows.map (fun row => row.map (fun p => if thresh < p then 255 else 0))

/-- Integer approximation of the 1D Gaussian weights for block size 11
(binomial row 10, total weight 1024). -/
def gaussWeights11 : List Nat := [1, 10, 45, 120, 210, 252, 210, 120, 45, 10, 1]

/-- Gaussian-weighted mean of the 11×11 neighborhood of `(y, x)`, rounded to
the nearest integer (total 2D weight 1024 * 1024 = 1048576). -/
def gaussMean11 (rows : List (List Nat)) (y x : Nat) : Nat :=
  (((List.range 11).flatMap (fun dy => (List.range 11).map (fun dx =>
    gaussWeights11.getD dy 0 * gaussWeights11.getD dx 0 *
      pixAt rows ((y : Int) + dy - 5) ((x : Int) + dx - 5)))).sum + 524288) / 1048576

/-- Modelled external primitive: cv2.adaptiveThreshold with
ADAPTIVE_THRESH_GAUSSIAN_C, THRESH_BINARY, maxval 255, block size 11 and
constant 2 — each pixel is compared against the Gaussian-weighted local mean
minus 2 (weights approximated by integers; only dimensions and binarity of
the result are relied on below). -/
def adaptiveThresholdGauss (rows : List (List Nat)) : List (List Nat) :=
  mapIdx rows (fun y x =>
    if (gaussMean11 rows y x : Int) - 2 < (pixAt rows y x : Int) then 255 else 0)

/-- The 3×3 neighborhood of `(y, x)` with replicated border. -/
def window3 (rows : List (List Nat)) (y x : Nat) : List Nat :=
  (List.range 3).flatMap (fun dy => (List.range 3).map (fun dx =>
    pixAt rows ((y : Int) + dy - 1) ((x : Int) + dx - 1)))

/-- Modelled external primitive: cv2.dilate with the 3×3 MORPH_RECT
structuring element — neighborhood maximum. -/
def dilate3 (rows : List (List Nat)) : List (List Nat) :=
  mapIdx rows (fun y x => (window3 rows y x).foldl max 0)

/-- Modelled external primitive: cv2.erode with the 3×3 MORPH_RECT
structuring element — neighborhood minimum. -/
def erode3 (rows : List (List Nat)) : List (List Nat) :=
  mapIdx rows (fun y x => (window3 rows y x).foldl min 255)

/-- Modelled external primitive: cv2.morphologyEx MORPH_CLOSE (dilate then
erode), one iteration. -/
def morphClose (rows : List (List Nat)) : List (List Nat) := erode3 (dilate3 rows)

/-- Modelled external primitive: cv2.morphologyEx MORPH_OPEN (erode then
dilate), one iteration. -/
def morphOpen (rows : List (List Nat)) : List (List Nat) := dilate3 (erode3 rows)

/-- A raw OpenCV image: single-channel grayscale (2D array) or 3-channel BGR
color (3D array). -/
inductive RawImage where
  | gray (rows : List (List Nat))
  | color (rows : List (List (Nat × Nat × Nat)))
deriving DecidableEq

/-- Total element count, as numpy .size (3 entries per pixel for color). -/
def RawImage.size : RawImage → Nat
  | .gray rows => (rows.map List.length).sum
  | .color rows => (rows.map (fun r => 3 * r.length)).sum

/-- The grayscale conversion step of preprocess_image: a 3-channel image goes
through cvtColor, a single-channel image is copied unchanged. -/
def RawImage.toGray : RawImage → List (List Nat)
  | .gray rows => rows
  | .color rows => cvtColorBGR2GRAY rows

/-- preprocess_image from src/ocr_utils.py: absent or zero-area images are
returned unchanged; otherwise grayscale conversion, median denoising, then
the mode-dependent transform; an unrecognized mode string falls through to
returning the denoised buffer. -/
def preprocess_image (image : Option RawImage) (mode : String) (threshold : Nat) :
    Option RawImage :=
  match image with
  | none => none
  | some img =>
    if img.size = 0 then some img
    else
      let denoised := medianBlur5 img.toGray
      if mode = "Grayscale" then some (.gray denoised)
      else if mode = "Threshold" then some (.gray (thresholdBinary threshold denoised))
      else if mode = "Adaptive Threshold" then some (.gray (adaptiveThresholdGauss denoised))
      else if mode = "Morphological" then
        some (.gray (morphOpen (morphClose (thresholdBinary threshold denoised))))
      else some (.gray denoised)

/-- extract_text_with_boxes from src/ocr_utils.py: absent or zero-area images
yield the empty string without calling the engine; an engine exception is
caught and converted to the string "Error: " followed by the message;
otherwise the engine text is stripped (empty text stays empty). -/
def extract_text_with_boxes (engine : RawImage → Except String String)
    (image : Option RawImage) : String :=
  match image with
  | none => ""
  | some img =>
    if img.size = 0 then ""
    else
      match engine img with
      | .ok text => if text = "" then "" else text.trim
      | .error e => "Error: " ++ e

/-- One candidate row of the structured engine output (pytesseract
image_to_data): recognized text, box position and size, confidence. -/
structure Candidate where
  text : String
  left : Int
  top : Int
  width : Int
  height : Int
  conf : Int
deriving DecidableEq

/-- Loop body of get_text_boxes: append the box of a candidate whose
confidence is strictly positive, drop all others. -/
def boxes_step (boxes : List (Int × Int × Int × Int × Int)) (c : Candidate) :
    List (Int × Int × Int × Int × Int) :=
  if 0 < c.conf then boxes ++ [(c.left, c.top, c.width, c.height, c.conf)] else boxes

/-- The candidate loop of get_text_boxes from src/ocr_utils.py. -/
def boxes_loop (data : List Candidate) : List (Int × Int × Int × Int × Int) :=
  data.foldl boxes_step []

/-- get_text_boxes from src/ocr_utils.py: absent or zero-area images yield
the empty list without calling the engine; an engine exception is caught and
converted to the empty list; otherwise the candidates with strictly positive
confidence are returned as boxes in emission order. -/
def get_text_boxes (engine : RawImage → Except String (List Candidate))
    (image : Option RawImage) : List (Int × Int × Int × Int × Int) :=
  match image with
  | none => []
  | some img =>
    if img.size = 0 then []
    else
      match engine img with
      | .ok data => boxes_loop data
      | .error _ => []

/-- Normalize one bound of a Python slice `l[i:j]` for a list of length `n`:
negative indices count from the end, then the bound is clamped to `[0, n]`. -/
def sliceIdx (n : Nat) (i : Int) : Nat :=
  if i < 0 then (max 0 (i + n)).toNat else min i.toNat n

/-- Python list slice `l[i:j]` (numpy basic slicing along one axis). -/
def npSlice {α : Type} (l : List α) (i j : Int) : List α :=
  (l.drop (sliceIdx l.length i)).take (sliceIdx l.length j - sliceIdx l.length i)

/-- The numpy crop image[y0:y1, x0:x1] used by extract_text_from_roi. -/
def RawImage.crop (img : RawImage) (y0 y1 x0 x1 : Int) : RawImage :=
  match img with
  | .gray rows => .gray ((npSlice rows y0 y1).map (fun row => npSlice row x0 x1))
  | .color rows => .color ((npSlice rows y0 y1).map (fun row => npSlice row x0 x1))

/-- extract_text_from_roi from src/ocr_utils.py: crop the image to the ROI;
a zero-area crop yields the empty string; otherwise preprocess the crop and
run the text extraction on it. -/
def extract_text_from_roi (engine : RawImage → Except String String)
    (image : RawImage) (roi_coords : Int × Int × Int × Int)
    (preprocess_mode : String) (threshold : Nat) : String :=
  let x := roi_coords.1
  let y := roi_coords.2.1
  let w := roi_coords.2.2.1
  let h := roi_coords.2.2.2
  let roi_image := image.crop y (y + h) x (x + w)
  if roi_image.size = 0 then ""
  else extract_text_with_boxes engine (preprocess_image (some roi_image) preprocess_mode threshold)

/-- Truncation of a rational toward zero, as the Python int() conversion. -/
def ratTrunc (q : Rat) : Int := q.num.tdiv (q.den : Int)

/-- get_roi_in_image_coords from src/main.py (method of ImageCanvas): scale
the display-space rectangle by sourceSize / displaySize, convert each
component with int(), then clamp x and y into the image and w and h to a
strictly positive extent that stays inside it. -/
def get_roi_in_image_coords (img_w img_h display_w display_h : Nat)
    (rx ry rw rh : Int) : Int × Int × Int × Int :=
  let scale_x : Rat := (img_w : Rat) / (display_w : Rat)
  let scale_y : Rat := (img_h : Rat) / (display_h : Rat)
  let x0 := ratTrunc (rx * scale_x)
  let y0 := ratTrunc (ry * scale_y)
  let w0 := ratTrunc (rw * scale_x)
  let h0 := ratTrunc (rh * scale_y)
  let x := max 0 (min x0 ((img_w : Int) - 1))
  let y := max 0 (min y0 ((img_h : Int) - 1))
  let w := max 1 (min w0 ((img_w : Int) - x))
  let h := max 1 (min h0 ((img_h : Int) - y))
  (x, y, w, h)

/-- Rounding to the nearest integer (half rounds up), as the word "round" in
the specification of the coordinate mapping. -/
def ratRound (q : Rat) : Int := ⌊q + 1 / 2⌋

/-- Coordinate mapping as claim C4 states it: each scaled component is
rounded to the nearest integer before the clamps. -/
def toSourceSpaceRound (img_w img_h display_w display_h : Nat)
    (rx ry rw rh : Int) : Int × Int × Int × Int :=
  let scale_x : Rat := (img_w : Rat) / (display_w : Rat)
  let scale_y : Rat := (img_h : Rat) / (display_h : Rat)
  let x0 := ratRound (rx * scale_x)
  let y0 := ratRound (ry * scale_y)
  let w0 := ratRound (rw * scale_x)
  let h0 := ratRound (rh * scale_y)
  let x := max 0 (min x0 ((img_w : Int) - 1))
  let y := max 0 (min y0 ((img_h : Int) - 1))
  let w := max 1 (min w0 ((img_w : Int) - x))
  let h := max 1 (min h0 ((img_h : Int) - y))
  (x, y, w, h)

/-- Truncation toward zero stated independently of the implementation: floor
for nonnegative values, ceiling for negative values. -/
def truncTowardZero (q : Rat) : Int := if 0 ≤ q then ⌊q⌋ else ⌈q⌉

/-- Coordinate mapping as the amended claim C4 states it: each scaled
component is truncated toward zero before the clamps. -/
def toSourceSpaceTrunc (img_w img_h display_w display_h : Nat)
    (rx ry rw rh : Int) : Int × Int × Int × Int :=
  let scale_x : Rat := (img_w : Rat) / (display_w : Rat)
  let scale_y : Rat := (img_h : Rat) / (display_h : Rat)
  let x0 := truncTowardZero (rx * scale_x)
  let y0 := truncTowardZero (ry * scale_y)
  let w0 := truncTowardZero (rw * scale_x)
  let h0 := truncTowardZero (rh * scale_y)
  let x := max 0 (min x0 ((img_w : Int) - 1))
  let y := max 0 (min y0 ((img_h : Int) - 1))
  let w := max 1 (min w0 ((img_w : Int) - x))
  let h := max 1 (min h0 ((img_h : Int) - y))
  (x, y, w, h)

/-- Concrete 2×2 grayscale test image. -/
def img2 : RawImage := .gray [[10, 200], [30, 40]]

/-- Concrete 1×1 grayscale test image. -/
def img1 : RawImage := .gray [[7]]

/-- Concrete engine response with confidences -1, 0, 5, 90. -/
def data4 : List Candidate :=
  [⟨"a", 0, 0, 1, 1, -1⟩, ⟨"b", 1, 1, 1, 1, 0⟩, ⟨"c", 2, 2, 3, 4, 5⟩, ⟨"d", 5, 6, 7, 8, 90⟩]

/-- Test engine that emits `data4`. -/
def eng4 : RawImage → Except String (List Candidate) := fun _ => .ok data4

/-- Test engine whose structured call always raises. -/
def failEngineBoxes : RawImage → Except String (List Candidate) :=
  fun _ => .error "tesseract unavailable"

/-- Test engine whose structured call succeeds with no candidates. -/
def emptyEngineBoxes : RawImage → Except String (List Candidate) := fun _ => .ok []

/-- Test engine whose text call always raises. -/
def failEngineText : RawImage → Except String String := fun _ => .error "boom"

/-- Test engine whose text call finds no text. -/
def noTextEngine : RawImage → Except String String := fun _ => .ok ""

/-- Test engine whose text call finds some text. -/
def helloEngine : RawImage → Except String String := fun _ => .ok "HELLO"

/-- Truncation toward zero of the implementation agrees with the floor/ceil
characterization. -/
theorem ratTrunc_eq_truncTowardZero (q : Rat) : ratTrunc q = truncTowardZero q := by
  unfold ratTrunc truncTowardZero
  split
  · rename_i h
    rw [Rat.floor_def]
    exact Int.tdiv_eq_ediv (Rat.num_nonneg.mpr h) (Int.ofNat_nonneg _)
  · rename_i h
    have hnum : 0 ≤ -q.num := by
      have hn : ¬ (0 ≤ q.num) := fun hn => h (Rat.num_nonneg.mp hn)
      omega
    calc q.num.tdiv (q.den : Int)
        = -((-q.num).tdiv (q.den : Int)) := by rw [Int.neg_tdiv, neg_neg]
      _ = -((-q.num) / (q.den : Int)) := by rw [Int.tdiv_eq_ediv hnum (Int.ofNat_nonneg _)]
      _ = -⌊-q⌋ := by rw [Rat.floor_def, Rat.neg_num, Rat.neg_den]
      _ = ⌈q⌉ := by rw [← Int.ceil_neg, neg_neg]

/-- The candidate loop of get_text_boxes, run from any accumulator, appends
exactly the boxes of the strictly-positive-confidence candidates in order. -/
theorem boxes_foldl_eq_filter (data : List Candidate)
    (acc : List (Int × Int × Int × Int × Int)) :
    data.foldl boxes_step acc =
      acc ++ (data.filter (fun c => 0 < c.conf)).map
        (fun c => (c.left, c.top, c.width, c.height, c.conf)) := by
  induction data generalizing acc with
  | nil => simp
  | cons c cs ih =>
    rw [List.foldl_cons, ih]
    by_cases h : 0 < c.conf
    · simp [boxes_step, h, List.filter_cons]
    · simp [boxes_step, h, List.filter_cons]

/-- C6: for every list of candidates emitted by the recognition engine on a
non-empty image, get_text_boxes returns exactly the boxes of the candidates
with confidence strictly greater than 0, in emission order. -/
theorem get_text_boxes_filters_conf (img : RawImage)
    (engine : RawImage → Except String (List Candidate)) (data : List Candidate)
    (hsz : img.size ≠ 0) (heng : engine img = Except.ok data) :
    get_text_boxes engine (some img) =
      (data.filter (fun c => 0 < c.conf)).map
        (fun c => (c.left, c.top, c.width, c.height, c.conf)) := by
  simp only [get_text_boxes, if_neg hsz, heng, boxes_loop]
  exact boxes_foldl_eq_filter data []

/-- Witness for C6: on the synthetic engine response with confidences
-1, 0, 5, 90, get_text_boxes returns exactly the two boxes with
confidences 5 and 90. -/
theorem get_text_boxes_filters_conf_witness :
    get_text_boxes eng4 (some img1) = [(2, 2, 3, 4, 5), (5, 6, 7, 8, 90)] := by
  rw [get_text_boxes_filters_conf img1 eng4 data4 (by decide) rfl]
  decide

/-- C1 (code behavior at the failing input): calling preprocess_image with a
mode outside the four known modes does not fail — it silently returns the
same denoised grayscale buffer as Grayscale mode; the function has no error
outcome at all. -/
theorem preprocess_unknown_mode_fallback :
    preprocess_image (some img2) "Otsu" 127 = preprocess_image (some img2) "Grayscale" 127 ∧
    preprocess_image (some img2) "Otsu" 127 = some (RawImage.gray (medianBlur5 img2.toGray)) := by
  exact ⟨rfl, rfl⟩

/-- C7 (code behavior at the failing input): when the engine raises,
get_text_boxes returns the empty list — the very value it returns when the
engine succeeds with no candidates — so the returned value carries no error
signal; the text path returns a plain string with an "Error: " prefix,
indistinguishable in type from recognized text. -/
theorem engine_failure_swallowed :
    get_text_boxes failEngineBoxes (some img1) = [] ∧
    get_text_boxes emptyEngineBoxes (some img1) = [] ∧
    extract_text_with_boxes failEngineText (some img1) = "Error: boom" := by
  exact ⟨rfl, rfl, rfl⟩

/-- C2 (counterexample): a zero-area ROI does not produce an InvalidArgument
failure — extract_text_from_roi returns the empty string, exactly the value
extract_text_with_boxes returns when the engine finds no text. -/
theorem roi_zero_area_counterexample :
    extract_text_from_roi helloEngine img2 (0, 0, 0, 2) "Grayscale" 127 = "" ∧
    extract_text_with_boxes noTextEngine (some img2) = "" := by
  exact ⟨rfl, rfl⟩

/-- C2 (amended): whenever the crop of the image to the ROI has zero area,
extract_text_from_roi returns the empty string for every engine — so the
engine is never invoked, but the result coincides with the "no text found"
result instead of being a distinct error. -/
theorem roi_zero_area_returns_empty (engine : RawImage → Except String String)
    (image : RawImage) (x y w h : Int) (mode : String) (t : Nat)
    (hz : (image.crop y (y + h) x (x + w)).size = 0) :
    extract_text_from_roi engine image (x, y, w, h) mode t = "" := by
  simp only [extract_text_from_roi]
  rw [if_pos hz]

/-- Witness for the amended C2 at a concrete zero-width ROI. -/
theorem roi_zero_area_returns_empty_witness :
    extract_text_from_roi helloEngine img2 (1, 0, 0, 2) "Threshold" 127 = "" := by
  exact roi_zero_area_returns_empty helloEngine img2 1 0 0 2 "Threshold" 127 (by decide)

/-- C10: on an absent (None) or zero-area image, preprocess_image returns its
input unchanged and both recognition operations return their empty result,
for every engine — the engine is never consulted. -/
theorem empty_input_noop (img : RawImage) (mode : String) (t : Nat)
    (engineS : RawImage → Except String String)
    (engineB : RawImage → Except String (List Candidate))
    (hsz : img.size = 0) :
    preprocess_image none mode t = none ∧
    preprocess_image (some img) mode t = some img ∧
    extract_text_with_boxes engineS none = "" ∧
    extract_text_with_boxes engineS (some img) = "" ∧
    get_text_boxes engineB none = [] ∧
    get_text_boxes engineB (some img) = [] := by
  refine ⟨rfl, ?_, rfl, ?_, rfl, ?_⟩ <;>
    simp [preprocess_image, extract_text_with_boxes, get_text_boxes, hsz]

/-- Witness for C10 on a concrete zero-area image (a 2-row grid with empty
rows) and concrete engines. -/
theorem empty_input_noop_witness :
    preprocess_image none "Threshold" 127 = none ∧
    preprocess_image (some (RawImage.gray [[], []])) "Threshold" 127 =
      some (RawImage.gray [[], []]) ∧
    extract_text_with_boxes helloEngine none = "" ∧
    extract_text_with_boxes helloEngine (some (RawImage.gray [[], []])) = "" ∧
    get_text_boxes eng4 none = [] ∧
    get_text_boxes eng4 (some (RawImage.gray [[], []])) = [] := by
  exact empty_input_noop (RawImage.gray [[], []]) "Threshold" 127 helloEngine eng4 (by decide)

/-- mapIdx preserves the height of the grid. -/
theorem imgH_mapIdx (rows : List (List Nat)) (f : Nat → Nat → Nat) :
    imgH (mapIdx rows f) = imgH rows := by
  simp [mapIdx, imgH]

/-- mapIdx preserves the width of the grid. -/
theorem imgW_mapIdx (rows : List (List Nat)) (f : Nat → Nat → Nat) :
    imgW (mapIdx rows f) = imgW rows := by
  cases rows with
  | nil => simp [mapIdx, imgH, imgW]
  | cons r rs =>
    simp only [mapIdx, imgH, imgW, List.length_cons]
    rw [List.range_succ_eq_map]
    simp

/-- A pointwise pixel map preserves the height of the grid. -/
theorem imgH_rowMap {α β : Type} (g : α → β) (rows : List (List α)) :
    imgH (rows.map (fun row => row.map g)) = imgH rows := by
  simp [imgH]

/-- A pointwise pixel map preserves the width of the grid. -/
theorem imgW_rowMap {α β : Type} (g : α → β) (rows : List (List α)) :
    imgW (rows.map (fun row => row.map g)) = imgW rows := by
  cases rows <;> simp [imgW]

/-- C9: for every non-empty image and each of the four preprocessing modes,
the buffer preprocess_image returns has the same width and height as the
grayscale-converted input. -/
theorem preprocess_preserves_dims (img : RawImage) (mode : String) (t : Nat)
    (hsz : img.size ≠ 0)
    (hm : mode = "Grayscale" ∨ mode = "Threshold" ∨
      mode = "Adaptive Threshold" ∨ mode = "Morphological") :
    ∃ rows, preprocess_image (some img) mode t = some (RawImage.gray rows) ∧
      imgH rows = imgH img.toGray ∧ imgW rows = imgW img.toGray := by
  rcases hm with rfl | rfl | rfl | rfl
  · refine ⟨medianBlur5 img.toGray, ?_, ?_, ?_⟩
    · simp [preprocess_image, if_neg hsz]
    · rw [medianBlur5, imgH_mapIdx]
    · rw [medianBlur5, imgW_mapIdx]
  · refine ⟨thresholdBinary t (medianBlur5 img.toGray), ?_, ?_, ?_⟩
    · simp [preprocess_image, if_neg hsz]
    · rw [thresholdBinary, imgH_rowMap, medianBlur5, imgH_mapIdx]
    · rw [thresholdBinary, imgW_rowMap, medianBlur5, imgW_mapIdx]
  · refine ⟨adaptiveThresholdGauss (medianBlur5 img.toGray), ?_, ?_, ?_⟩
    · simp [preprocess_image, if_neg hsz]
    · rw [adaptiveThresholdGauss, imgH_mapIdx, medianBlur5, imgH_mapIdx]
    · rw [adaptiveThresholdGauss, imgW_mapIdx, medianBlur5, imgW_mapIdx]
  · refine ⟨morphOpen (morphClose (thresholdBinary t (medianBlur5 img.toGray))), ?_, ?_, ?_⟩
    · simp [preprocess_image, if_neg hsz]
    · rw [morphOpen, morphClose, dilate3, erode3, dilate3, erode3,
        imgH_mapIdx, imgH_mapIdx, imgH_mapIdx, imgH_mapIdx,
        thresholdBinary, imgH_rowMap, medianBlur5, imgH_mapIdx]
    · rw [morphOpen, morphClose, dilate3, erode3, dilate3, erode3,
        imgW_mapIdx, imgW_mapIdx, imgW_mapIdx, imgW_mapIdx,
        thresholdBinary, imgW_rowMap, medianBlur5, imgW_mapIdx]

/-- Witness for C9 at a concrete 2×2 image in Morphological mode. -/
theorem preprocess_preserves_dims_witness :
    ∃ rows, preprocess_image (some img2) "Morphological" 127 = some (RawImage.gray rows) ∧
      imgH rows = imgH img2.toGray ∧ imgW rows = imgW img2.toGray := by
  exact preprocess_preserves_dims img2 "Morphological" 127 (by decide)
    (Or.inr (Or.inr (Or.inr rfl)))

/-- getD through a map, when the map sends the default to the default. -/
theorem getD_map_of_default {α β : Type} (f : α → β) (d : α) (e : β) (hfd : f d = e)
    (l : List α) (i : Nat) : (l.map f).getD i e = f (l.getD i d) := by
  rw [List.getD_eq_getElem?_getD, List.getD_eq_getElem?_getD, List.getElem?_map]
  cases l[i]? <;> simp [hfd]

/-- C8: in Threshold mode on a non-empty image, preprocess_image returns the
global binary threshold of the denoised grayscale input — every pixel is
exactly 0 or 255, and a pixel is 255 exactly when the corresponding denoised
pixel is strictly above the cutoff. -/
theorem threshold_mode_binary (img : RawImage) (t : Nat)
    (hsz : img.size ≠ 0) (ht : t ≤ 255) :
    ∃ rows, preprocess_image (some img) "Threshold" t = some (RawImage.gray rows) ∧
      (∀ row ∈ rows, ∀ p ∈ row, p = 0 ∨ p = 255) ∧
      ∀ i j, (rows.getD i []).getD j 0 =
        if t < ((medianBlur5 img.toGray).getD i []).getD j 0 then 255 else 0 := by
  refine ⟨thresholdBinary t (medianBlur5 img.toGray), ?_, ?_, ?_⟩
  · simp [preprocess_image, if_neg hsz]
  · intro row hrow p hp
    rw [thresholdBinary, List.mem_map] at hrow
    obtain ⟨r0, _, rfl⟩ := hrow
    rw [List.mem_map] at hp
    obtain ⟨q, _, rfl⟩ := hp
    by_cases h : t < q <;> simp [h]
  · intro i j
    rw [thresholdBinary,
      getD_map_of_default (List.map (fun p => if t < p then 255 else 0)) [] [] rfl,
      getD_map_of_default (fun p => if t < p then 255 else 0) 0 0 (by simp)]

/-- Witness for C8 at a concrete 2×2 image and cutoff 100. -/
theorem threshold_mode_binary_witness :
    ∃ rows, preprocess_image (some img2) "Threshold" 100 = some (RawImage.gray rows) ∧
      (∀ row ∈ rows, ∀ p ∈ row, p = 0 ∨ p = 255) ∧
      ∀ i j, (rows.getD i []).getD j 0 =
        if 100 < ((medianBlur5 img2.toGray).getD i []).getD j 0 then 255 else 0 := by
  exact threshold_mode_binary img2 100 (by decide) (by decide)

/-- C3: for every display rectangle (negative or out-of-bounds values
included) and positive display and source dimensions, the mapped rectangle
satisfies the clamp bounds: x in [0, sourceW-1], y in [0, sourceH-1],
w in [1, sourceW - x], h in [1, sourceH - y], hence lies fully inside the
source image with strictly positive area. -/
theorem roi_mapping_in_bounds (iw ih dw dh : Nat) (rx ry rw rh : Int)
    (hiw : 0 < iw) (hih : 0 < ih) (hdw : 0 < dw) (hdh : 0 < dh) :
    0 ≤ (get_roi_in_image_coords iw ih dw dh rx ry rw rh).1 ∧
    (get_roi_in_image_coords iw ih dw dh rx ry rw rh).1 ≤ (iw : Int) - 1 ∧
    0 ≤ (get_roi_in_image_coords iw ih dw dh rx ry rw rh).2.1 ∧
    (get_roi_in_image_coords iw ih dw dh rx ry rw rh).2.1 ≤ (ih : Int) - 1 ∧
    1 ≤ (get_roi_in_image_coords iw ih dw dh rx ry rw rh).2.2.1 ∧
    (get_roi_in_image_coords iw ih dw dh rx ry rw rh).2.2.1 ≤
      (iw : Int) - (get_roi_in_image_coords iw ih dw dh rx ry rw rh).1 ∧
    1 ≤ (get_roi_in_image_coords iw ih dw dh rx ry rw rh).2.2.2 ∧
    (get_roi_in_image_coords iw ih dw dh rx ry rw rh).2.2.2 ≤
      (ih : Int) - (get_roi_in_image_coords iw ih dw dh rx ry rw rh).2.1 := by
  simp only [get_roi_in_image_coords]
  omega

/-- Witness for C3 at a display rectangle with negative x and width reaching
far beyond the display. -/
theorem roi_mapping_in_bounds_witness :
    0 ≤ (get_roi_in_image_coords 4 3 2 2 (-5) 1 100 1).1 ∧
    (get_roi_in_image_coords 4 3 2 2 (-5) 1 100 1).1 ≤ (4 : Int) - 1 ∧
    0 ≤ (get_roi_in_image_coords 4 3 2 2 (-5) 1 100 1).2.1 ∧
    (get_roi_in_image_coords 4 3 2 2 (-5) 1 100 1).2.1 ≤ (3 : Int) - 1 ∧
    1 ≤ (get_roi_in_image_coords 4 3 2 2 (-5) 1 100 1).2.2.1 ∧
    (get_roi_in_image_coords 4 3 2 2 (-5) 1 100 1).2.2.1 ≤
      (4 : Int) - (get_roi_in_image_coords 4 3 2 2 (-5) 1 100 1).1 ∧
    1 ≤ (get_roi_in_image_coords 4 3 2 2 (-5) 1 100 1).2.2.2 ∧
    (get_roi_in_image_coords 4 3 2 2 (-5) 1 100 1).2.2.2 ≤
      (3 : Int) - (get_roi_in_image_coords 4 3 2 2 (-5) 1 100 1).2.1 := by
  exact roi_mapping_in_bounds 4 3 2 2 (-5) 1 100 1
    (by decide) (by decide) (by decide) (by decide)

/-- C4 (amended): the coordinate mapping truncates each scaled component
toward zero (floor for nonnegative, ceiling for negative) before clamping,
for all inputs. -/
theorem roi_mapping_truncates (iw ih dw dh : Nat) (rx ry rw rh : Int) :
    get_roi_in_image_coords iw ih dw dh rx ry rw rh =
      toSourceSpaceTrunc iw ih dw dh rx ry rw rh := by
  simp only [get_roi_in_image_coords, toSourceSpaceTrunc, ratTrunc_eq_truncTowardZero]

/-- C4 (counterexample): at source width 19, display width 10 and a display
rectangle at x = 1 of width 1 (scale 1.9), the code maps x and w to 1
(truncation of 1.9) while the round-to-nearest mapping of the claim yields 2,
so the mapping does not round to the nearest integer. -/
theorem roi_mapping_round_counterexample :
    get_roi_in_image_coords 19 1 10 1 1 0 1 1 ≠ toSourceSpaceRound 19 1 10 1 1 0 1 1 := by
  have h1 : get_roi_in_image_coords 19 1 10 1 1 0 1 1 = (1, 0, 1, 1) := by
    norm_num [get_roi_in_image_coords, ratTrunc_eq_truncTowardZero, truncTowardZero]
  have h2 : toSourceSpaceRound 19 1 10 1 1 0 1 1 = (2, 0, 2, 1) := by
    norm_num [toSourceSpaceRound, ratRound]
  rw [h1, h2]
  decide

/-- C5: for all positive display and source dimensions, the full-display
rectangle (0, 0, displayW, displayH) maps exactly to (0, 0, sourceW,
sourceH) — in particular within the 1-pixel rounding allowance of the
claim. -/
theorem roi_full_display_exact (iw ih dw dh : Nat)
    (hiw : 0 < iw) (hih : 0 < ih) (hdw : 0 < dw) (hdh : 0 < dh) :
    get_roi_in_image_coords iw ih dw dh 0 0 (dw : Int) (dh : Int) =
      (0, 0, (iw : Int), (ih : Int)) := by
  have hdw0 : ((dw : Nat) : Rat) ≠ 0 := Nat.cast_ne_zero.mpr (Nat.pos_iff_ne_zero.mp hdw)
  have hdh0 : ((dh : Nat) : Rat) ≠ 0 := Nat.cast_ne_zero.mpr (Nat.pos_iff_ne_zero.mp hdh)
  simp only [get_roi_in_image_coords]
  push_cast
  simp only [zero_mul]
  rw [mul_comm ((dw : Rat)) _, div_mul_cancel₀ _ hdw0,
    mul_comm ((dh : Rat)) _, div_mul_cancel₀ _ hdh0]
  have hz : ratTrunc 0 = 0 := rfl
  have hn : ∀ n : Nat, ratTrunc ((n : Nat) : Rat) = n := by
    intro n
    rw [ratTrunc_eq_truncTowardZero, truncTowardZero, if_pos (by positivity)]
    exact Int.floor_natCast n
  simp only [hz, hn]
  simp only [Prod.mk.injEq]
  refine ⟨?_, ?_, ?_, ?_⟩ <;> omega

/-- Witness for C5 at a 7×5 source displayed at 3×2. -/
theorem roi_full_display_exact_witness :
    get_roi_in_image_coords 7 5 3 2 0 0 3 2 = (0, 0, 7, 5) := by
  exact roi_full_display_exact 7 5 3 2 (by decide) (by decide) (by decide) (by decide)
